import Mathlib

/-!
Verification development for the Progol quiniela portfolio generator
The pure computational core -- probability
calibration, match classification, ticket generation, draw-count
adjustment and portfolio validation -- is embedded below over exact
rational arithmetic; JavaScript floats become ℚ, JS stable sorts become
stable insertion sorts, and the Math.random stream is passed explicitly.
-/

/-- Outcome of a match: L = home win, E = draw, V = away win. -/
inductive Resultado where
  | L : Resultado
  | E : Resultado
  | V : Resultado
deriving DecidableEq, Inhabited

/-- Calibrated probability triple, as produced by aplicarCalibracionBayesiana. -/
structure Probs where
  prob_local : ℚ
  prob_empate : ℚ
  prob_visitante : ℚ
deriving DecidableEq, Inhabited

/-- Raw input match: probabilities plus contextual signals
(forma_diferencia, lesiones_impact, es_final). -/
structure PartidoInput where
  prob_local : ℚ
  prob_empate : ℚ
  prob_visitante : ℚ
  forma_diferencia : ℚ
  lesiones_impact : ℚ
  es_final : Bool
deriving DecidableEq, Inhabited

/-- PROGOL_CONFIG.CALIBRACION.k1_forma. -/
def k1_forma : ℚ := 15/100
/-- PROGOL_CONFIG.CALIBRACION.k2_lesiones. -/
def k2_lesiones : ℚ := 10/100
/-- PROGOL_CONFIG.CALIBRACION.k3_contexto. -/
def k3_contexto : ℚ := 20/100
/-- PROGOL_CONFIG.DRAW_PROPENSITY.umbral_diferencia. -/
def umbral_diferencia : ℚ := 8/100
/-- PROGOL_CONFIG.DRAW_PROPENSITY.boost_empate. -/
def boost_empate : ℚ := 6/100
/-- PROGOL_CONFIG.EMPATES_MIN. -/
def EMPATES_MIN : Nat := 4
/-- PROGOL_CONFIG.EMPATES_MAX. -/
def EMPATES_MAX : Nat := 6
/-- PROGOL_CONFIG.CONCENTRACION_MAX_GENERAL. -/
def CONCENTRACION_MAX_GENERAL : ℚ := 70/100
/-- PROGOL_CONFIG.CONCENTRACION_MAX_INICIAL. -/
def CONCENTRACION_MAX_INICIAL : ℚ := 60/100

/-- The adjustment factor 1 + k1*deltaForma + k2*lesiones + k3*contexto. -/
def factorAjuste (p : PartidoInput) : ℚ :=
  1 + k1_forma * p.forma_diferencia + k2_lesiones * p.lesiones_impact
    + k3_contexto * (if p.es_final then 1 else 0)

/-- probLocal after scaling by the adjustment factor. -/
def probLocalAjustada (p : PartidoInput) : ℚ :=
  p.prob_local * factorAjuste p

/-- probVisitante after dividing by max(factor, 0.1). -/
def probVisitanteAjustada (p : PartidoInput) : ℚ :=
  p.prob_visitante / max (factorAjuste p) (1/10)

/-- probEmpate after the draw-propensity boost: if the adjusted home and
away probabilities are within 0.08 of each other and the draw probability
exceeds both, add 0.06 capped at 0.95. -/
def probEmpateAjustada (p : PartidoInput) : ℚ :=
  if |probLocalAjustada p - probVisitanteAjustada p| < umbral_diferencia ∧
      p.prob_empate > max (probLocalAjustada p) (probVisitanteAjustada p) then
    min (p.prob_empate + boost_empate) (95/100)
  else p.prob_empate

/-- The renormalization denominator: sum of the three adjusted probabilities. -/
def totalAjustado (p : PartidoInput) : ℚ :=
  probLocalAjustada p + probEmpateAjustada p + probVisitanteAjustada p

/-- MatchClassifier.aplicarCalibracionBayesiana: adjust the three raw
probabilities by the calibration factor and the draw-propensity rule,
then renormalize by their sum. The function is total and performs no
validation: a zero total makes the ℚ divisions return 0 (JS floats would
give NaN); either way a value is returned, never an error. -/
def aplicarCalibracionBayesiana (p : PartidoInput) : Probs :=
  { prob_local := probLocalAjustada p / totalAjustado p
    prob_empate := probEmpateAjustada p / totalAjustado p
    prob_visitante := probVisitanteAjustada p / totalAjustado p }

/-- The four classification categories. -/
inductive Clasificacion where
  | Ancla : Clasificacion
  | TendenciaEmpate : Clasificacion
  | Divisor : Clasificacion
  | Neutro : Clasificacion
deriving DecidableEq, Inhabited

/-- The maximum of the three calibrated probabilities. -/
def maxProb (p : Probs) : ℚ :=
  max p.prob_local (max p.prob_empate p.prob_visitante)

/-- MatchClassifier.clasificarPartido: first-match-wins threshold rules
with umbralAncla = 0.60, umbralDivisorMin = 0.40, umbralDivisorMax = 0.60,
umbralEmpate = 0.30. -/
def clasificarPartido (p : Probs) : Clasificacion :=
  if maxProb p > 60/100 then Clasificacion.Ancla
  else if p.prob_empate > 30/100 ∧
      p.prob_empate ≥ max p.prob_local p.prob_visitante then
    Clasificacion.TendenciaEmpate
  else if 40/100 ≤ maxProb p ∧ maxProb p < 60/100 then Clasificacion.Divisor
  else Clasificacion.Neutro

/-- The probability a calibrated triple assigns to an outcome. -/
def probOf (p : Probs) : Resultado → ℚ
  | Resultado.L => p.prob_local
  | Resultado.E => p.prob_empate
  | Resultado.V => p.prob_visitante

/-- MatchClassifier.getResultadoSugerido: Object.keys iterates L, E, V and
reduce keeps the accumulator only on a strict >, so a later key replaces
an earlier one that merely ties it. -/
def getResultadoSugerido (p : Probs) : Resultado :=
  [Resultado.E, Resultado.V].foldl
    (fun a b => if probOf p a > probOf p b then a else b) Resultado.L

/-- Stable descending sort by key f: insertion sort in which an inserted
element stops before the first key it is ≥, so equal keys keep their
source order. Models the stable JS Array.sort with comparator
(a, b) => b.prob - a.prob. -/
def sortDescBy {α : Type} (f : α → ℚ) (l : List α) : List α :=
  List.insertionSort (fun a b => f a ≥ f b) l

/-- Stable ascending sort by key f. Models the stable JS Array.sort with
comparator (a, b) => a.prob - b.prob. -/
def sortAscBy {α : Type} (f : α → ℚ) (l : List α) : List α :=
  List.insertionSort (fun a b => f a ≤ f b) l

/-- A classified match as built by MatchClassifier.classifyMatches:
calibrated probabilities plus the classification and the suggested
outcome (team names, id and confianza are presentation data and omitted). -/
structure PartidoClasificado where
  prob_local : ℚ
  prob_empate : ℚ
  prob_visitante : ℚ
  clasificacion : Clasificacion
  resultadoSugerido : Resultado
deriving DecidableEq, Inhabited

/-- The calibrated probability triple of a classified match. -/
def probsDe (m : PartidoClasificado) : Probs :=
  { prob_local := m.prob_local
    prob_empate := m.prob_empate
    prob_visitante := m.prob_visitante }

/-- One element of MatchClassifier.classifyMatches: derive the
classification and suggested outcome from a calibrated triple. -/
def clasificarMatch (p : Probs) : PartidoClasificado :=
  { prob_local := p.prob_local
    prob_empate := p.prob_empate
    prob_visitante := p.prob_visitante
    clasificacion := clasificarPartido p
    resultadoSugerido := getResultadoSugerido p }

/-- PortfolioGenerator.getResultadoAlternativo: sort the three
(outcome, probability) records descending by probability with the stable
sort and take the record at index 1 (the second most probable option). -/
def getResultadoAlternativo (m : PartidoClasificado) : Resultado :=
  let probs := sortDescBy (fun c => c.2)
    [(Resultado.L, m.prob_local), (Resultado.E, m.prob_empate),
     (Resultado.V, m.prob_visitante)]
  (probs.getD 1 (Resultado.L, 0)).1

/-- Recursion of PortfolioGenerator.crearQuinielaBase carrying the
empatesActuales counter. The source increments the counter inside the
TendenciaEmpate branch and then again in the unconditional
`if (resultado === E)` check, so a forced draw advances the counter by two. -/
def crearQuinielaBaseGo : List PartidoClasificado → Nat → List Resultado
  | [], _ => []
  | partido :: rest, empatesActuales =>
    if partido.clasificacion = Clasificacion.Ancla then
      let resultado := partido.resultadoSugerido
      let e := if resultado = Resultado.E then empatesActuales + 1 else empatesActuales
      resultado :: crearQuinielaBaseGo rest e
    else if partido.clasificacion = Clasificacion.TendenciaEmpate ∧
        empatesActuales < EMPATES_MAX then
      Resultado.E :: crearQuinielaBaseGo rest (empatesActuales + 1 + 1)
    else
      let resultado := partido.resultadoSugerido
      let e := if resultado = Resultado.E then empatesActuales + 1 else empatesActuales
      resultado :: crearQuinielaBaseGo rest e

/-- PortfolioGenerator.crearQuinielaBase. -/
def crearQuinielaBase (partidos : List PartidoClasificado) : List Resultado :=
  crearQuinielaBaseGo partidos 0

/-- Number of draw slots of a ticket (quiniela.filter(r => r === E).length). -/
def countE (quiniela : List Resultado) : Nat :=
  (quiniela.filter (fun r => r = Resultado.E)).length

/-- Add-path candidates of ajustarEmpates: indices whose slot is not E and
whose match has prob_empate > 0.20, with that probability. -/
def candidatosAdd (quiniela : List Resultado)
    (partidos : List PartidoClasificado) : List (Nat × ℚ) :=
  (quiniela.zip partidos).enum.filterMap fun c =>
    if c.2.1 ≠ Resultado.E ∧ c.2.2.prob_empate > 20/100 then
      some (c.1, c.2.2.prob_empate)
    else none

/-- Remove-path candidates of ajustarEmpates: indices whose slot is E,
with the prob_empate of that slot. -/
def candidatosEmpate (quiniela : List Resultado)
    (partidos : List PartidoClasificado) : List (Nat × ℚ) :=
  (quiniela.zip partidos).enum.filterMap fun c =>
    if c.2.1 = Resultado.E then some (c.1, c.2.2.prob_empate) else none

/-- PortfolioGenerator.ajustarEmpates: if the ticket has fewer than
EMPATES_MIN draws, convert the highest-prob_empate qualifying non-draw
slots to E; if it has more than EMPATES_MAX, revert the lowest-prob_empate
draw slots to the resultadoSugerido of each match; otherwise return it unchanged. -/
def ajustarEmpates (quiniela : List Resultado)
    (partidos : List PartidoClasificado) : List Resultado :=
  let empatesActuales := countE quiniela
  if empatesActuales < EMPATES_MIN then
    let empatesNecesarios := EMPATES_MIN - empatesActuales
    let candidatos := sortDescBy (fun c => c.2) (candidatosAdd quiniela partidos)
    (candidatos.take (min empatesNecesarios candidatos.length)).foldl
      (fun q c => q.set c.1 Resultado.E) quiniela
  else if empatesActuales > EMPATES_MAX then
    let empatesExceso := empatesActuales - EMPATES_MAX
    let candidatos := sortAscBy (fun c => c.2) (candidatosEmpate quiniela partidos)
    (candidatos.take (min empatesExceso candidatos.length)).foldl
      (fun q c => q.set c.1 (partidos.getD c.1 default).resultadoSugerido) quiniela
  else quiniela

/-- Pivot selection of crearParSatelites:
partidosDivisor[parId % length]?.index || 0, which falls back to index 0
when the Divisor list is empty (and maps a falsy index 0 to 0). -/
def pivotPrincipal (divisorIdx : List Nat) (parId : Nat) : Nat :=
  match divisorIdx with
  | [] => 0
  | l => l.getD (parId % l.length) 0

/-- Indices of the Divisor-classified matches, as computed by
generateSatelliteQuinielas. -/
def partidosDivisorIdx (partidos : List PartidoClasificado) : List Nat :=
  (partidos.enum.filter
    (fun c => c.2.clasificacion = Clasificacion.Divisor)).map (fun c => c.1)

/-- Loop of PortfolioGenerator.crearParSatelites over the match list:
slot i is the pivot gets (sugerido, alternativo); an Ancla slot repeats the
suggested outcome on both tickets; any other slot consumes one value of
the Math.random stream rnd and diverges iff that value is < 0.3. -/
def crearParSatelitesGo (pivot : Nat) (rnd : Nat → ℚ) :
    List PartidoClasificado → Nat → Nat → List Resultado × List Resultado
  | [], _, _ => ([], [])
  | partido :: rest, i, consumed =>
    if i = pivot then
      let p := crearParSatelitesGo pivot rnd rest (i + 1) consumed
      (partido.resultadoSugerido :: p.1, getResultadoAlternativo partido :: p.2)
    else if partido.clasificacion = Clasificacion.Ancla then
      let p := crearParSatelitesGo pivot rnd rest (i + 1) consumed
      (partido.resultadoSugerido :: p.1, partido.resultadoSugerido :: p.2)
    else
      let p := crearParSatelitesGo pivot rnd rest (i + 1) (consumed + 1)
      if rnd consumed < 3/10 then
        (partido.resultadoSugerido :: p.1, getResultadoAlternativo partido :: p.2)
      else
        (partido.resultadoSugerido :: p.1, partido.resultadoSugerido :: p.2)

/-- The raw (pre tie-adjustment) satellite pair of crearParSatelites. -/
def crearParSatelitesRaw (partidos : List PartidoClasificado)
    (divisorIdx : List Nat) (parId : Nat) (rnd : Nat → ℚ) :
    List Resultado × List Resultado :=
  crearParSatelitesGo (pivotPrincipal divisorIdx parId) rnd partidos 0 0

/-- PortfolioGenerator.crearParSatelites: the raw pair with each ticket
passed through ajustarEmpates independently (the resultados fields of the
returned pair; ids and metrics are presentation data and omitted). -/
def crearParSatelites (partidos : List PartidoClasificado)
    (divisorIdx : List Nat) (parId : Nat) (rnd : Nat → ℚ) :
    List Resultado × List Resultado :=
  let par := crearParSatelitesRaw partidos divisorIdx parId rnd
  (ajustarEmpates par.1 partidos, ajustarEmpates par.2 partidos)

/-- Per-slot outcome count of validarConcentracion: the number of tickets
whose slot idx exists and holds r. -/
def conteoSlot (quinielas : List (List Resultado)) (idx : Nat)
    (r : Resultado) : Nat :=
  quinielas.countP (fun q => decide (q[idx]? = some r))

/-- maxConcentracion of a slot: the largest of the three outcome counts
divided by the number of tickets. -/
def maxConcentracion (quinielas : List (List Resultado)) (idx : Nat) : ℚ :=
  (max (conteoSlot quinielas idx Resultado.L)
    (max (conteoSlot quinielas idx Resultado.E)
      (conteoSlot quinielas idx Resultado.V)) : ℚ) / quinielas.length

/-- The concentration limit: 0.60 for the first three slots, 0.70 after. -/
def limiteAplicable (idx : Nat) : ℚ :=
  if idx < 3 then CONCENTRACION_MAX_INICIAL else CONCENTRACION_MAX_GENERAL

/-- The slots 0..13 whose concentration exceeds the applicable limit, in
scan order (the concentracionesProblematicas list, each message represented
by its slot index). -/
def problemasConcentracion (quinielas : List (List Resultado)) : List Nat :=
  (List.range 14).filter
    (fun idx => decide (maxConcentracion quinielas idx > limiteAplicable idx))

/-- Outcome of validarConcentracion: the error and warning entries it
pushes, each concentration message represented by its slot index; the
single aggregated error keeps the slice(0, 3) of the problem list. -/
structure ConcValidacion where
  errores : List (List Nat)
  warnings : List Nat
deriving DecidableEq, Inhabited

/-- PortfolioValidator.validarConcentracion: no output on an empty
portfolio; more than 3 problem slots produce one aggregated error holding
the first three, otherwise each problem slot becomes a warning. -/
def validarConcentracion (quinielas : List (List Resultado)) : ConcValidacion :=
  if quinielas.length = 0 then { errores := [], warnings := [] }
  else
    let problemas := problemasConcentracion quinielas
    if problemas.length > 0 then
      if problemas.length > 3 then
        { errores := [problemas.take 3], warnings := [] }
      else
        { errores := [], warnings := problemas }
    else { errores := [], warnings := [] }

/-- A generated ticket with its per-ticket hit-probability estimate, the
fields of calcularMetricas that the portfolio metric reads. -/
structure Quiniela where
  resultados : List Resultado
  prob_11_plus : ℚ
deriving DecidableEq

/-- The prob_portafolio_11_plus metric of
PortfolioValidator.calcularMetricas:
1 - probs11Plus.reduce((acc, prob) => acc * (1 - prob), 1). -/
def probPortafolio11Plus (quinielas : List Quiniela) : ℚ :=
  1 - (quinielas.map (fun q => q.prob_11_plus)).foldl
    (fun acc prob => acc * (1 - prob)) 1

/-- Modelled from the claim wording, for comparison with the code: the
arg-max of the three probabilities with a FIRST-wins tie-break on the
enumeration order L, E, V. -/
def resultadoSugeridoPrimerEmpate (p : Probs) : Resultado :=
  if p.prob_local ≥ p.prob_empate ∧ p.prob_local ≥ p.prob_visitante then
    Resultado.L
  else if p.prob_empate ≥ p.prob_visitante then Resultado.E
  else Resultado.V

/-- A calibrated triple with a tie between home and draw at the maximum. -/
def probsEmpateLE : Probs :=
  { prob_local := 4/10, prob_empate := 4/10, prob_visitante := 2/10 }

/-- Claim C1, counterexample: on the triple (0.40, 0.40, 0.20) the
first-wins arg-max demanded by the claim is L, but getResultadoSugerido
returns E: the reduce keeps the accumulator only on a strict >, so a later
key replaces an earlier one that ties it. -/
theorem c1_counterexample :
    resultadoSugeridoPrimerEmpate probsEmpateLE = Resultado.L ∧
    getResultadoSugerido probsEmpateLE = Resultado.E := by
  constructor
  · norm_num [resultadoSugeridoPrimerEmpate, probsEmpateLE]
  · norm_num [getResultadoSugerido, probsEmpateLE, probOf]

/-- The arg-max with a LAST-wins tie-break on the order L, E, V: the
latest outcome attaining the maximum of the three probabilities. -/
def resultadoSugeridoUltimoEmpate (p : Probs) : Resultado :=
  if p.prob_visitante ≥ p.prob_local ∧ p.prob_visitante ≥ p.prob_empate then
    Resultado.V
  else if p.prob_empate ≥ p.prob_local then Resultado.E
  else Resultado.L

/-- Claim C1 (amended): the suggested outcome is the arg-max of the three
calibrated probabilities with a last-wins tie-break on the enumeration
order Home, Draw, Away: whenever two or more probabilities share the
maximum, the latest of L, E, V is returned. -/
theorem c1_resultado_sugerido_arg_max (p : Probs) :
    getResultadoSugerido p = resultadoSugeridoUltimoEmpate p := by
  unfold getResultadoSugerido resultadoSugeridoUltimoEmpate
  simp only [List.foldl_cons, List.foldl_nil, probOf]
  by_cases hLE : p.prob_local > p.prob_empate
  · rw [if_pos hLE]
    simp only [probOf]
    by_cases hLV : p.prob_local > p.prob_visitante
    · rw [if_pos hLV, if_neg (fun hc => absurd hc.1 (not_le.mpr hLV)),
        if_neg (not_le.mpr hLE)]
    · rw [if_neg hLV,
        if_pos (And.intro (not_lt.mp hLV) (by linarith [not_lt.mp hLV]))]
  · rw [if_neg hLE]
    simp only [probOf]
    by_cases hEV : p.prob_empate > p.prob_visitante
    · rw [if_pos hEV, if_neg (fun hc => absurd hc.2 (not_le.mpr hEV)),
        if_pos (not_lt.mp hLE)]
    · rw [if_neg hEV,
        if_pos (And.intro (le_trans (not_lt.mp hLE) (not_lt.mp hEV))
          (not_lt.mp hEV))]

/-- A match with calibrated probabilities (0.20, 0.40, 0.40): classified
TendenciaEmpate, suggested outcome V (the last-wins tie-break picks V over
the tied E). -/
def partidoTendenciaV : PartidoClasificado := clasificarMatch ⟨2/10, 4/10, 4/10⟩

/-- Claim C3, evaluation at the failing input: four DrawLeaning matches in
a row. Each forced draw advances the internal counter by two (once in the
TendenciaEmpate branch, once in the unconditional resultado check), so
after three forced draws the counter reads 6 = EMPATES_MAX and the fourth
match takes its suggested outcome V, although only three draw slots were
actually filled and the claim expects a fourth forced Draw. -/
theorem c3_contador_doble_falla :
    partidoTendenciaV.clasificacion = Clasificacion.TendenciaEmpate ∧
    crearQuinielaBase (List.replicate 4 partidoTendenciaV) =
      [Resultado.E, Resultado.E, Resultado.E, Resultado.V] := by
  have hpt : partidoTendenciaV =
      { prob_local := 2/10, prob_empate := 4/10, prob_visitante := 4/10,
        clasificacion := Clasificacion.TendenciaEmpate,
        resultadoSugerido := Resultado.V } := by
    norm_num [partidoTendenciaV, clasificarMatch, clasificarPartido, maxProb,
      max_def, getResultadoSugerido, probOf]
  rw [hpt]
  exact ⟨rfl, by decide⟩

/-- The all-zero input match: raw probability sum 0, non-positive. -/
def partidoCero : PartidoInput :=
  { prob_local := 0, prob_empate := 0, prob_visitante := 0,
    forma_diferencia := 0, lesiones_impact := 0, es_final := false }

/-- Claim C6, counterexample: on the all-zero match, whose raw probability
sum is 0 (non-positive), calibration does not fail: no InvalidProbabilities
path exists in the code, and the function returns the triple (0, 0, 0)
(JS floats would hold NaN entries; the ℚ model maps division by zero
to 0) instead of rejecting the input. -/
theorem c6_counterexample :
    partidoCero.prob_local + partidoCero.prob_empate +
      partidoCero.prob_visitante = 0 ∧
    aplicarCalibracionBayesiana partidoCero =
      { prob_local := 0, prob_empate := 0, prob_visitante := 0 } := by
  constructor
  · norm_num [partidoCero]
  · norm_num [aplicarCalibracionBayesiana, partidoCero, totalAjustado,
      probLocalAjustada, probEmpateAjustada, probVisitanteAjustada,
      factorAjuste, k1_forma, k2_lesiones, k3_contexto, umbral_diferencia,
      boost_empate, max_def]

/-- Claim C6 (amended): calibration performs no input validation and never
fails. In the degenerate case of a zero adjusted total the divisions
collapse and the function still returns a value, (0, 0, 0) in exact
arithmetic, rather than raising any error. -/
theorem c6_sin_validacion (p : PartidoInput) (h : totalAjustado p = 0) :
    aplicarCalibracionBayesiana p =
      { prob_local := 0, prob_empate := 0, prob_visitante := 0 } := by
  unfold aplicarCalibracionBayesiana
  rw [h]
  simp

/-- Witness for c6_sin_validacion at the all-zero match. -/
theorem c6_sin_validacion_witness :
    totalAjustado partidoCero = 0 ∧
    aplicarCalibracionBayesiana partidoCero =
      { prob_local := 0, prob_empate := 0, prob_visitante := 0 } := by
  have h : totalAjustado partidoCero = 0 := by
    norm_num [partidoCero, totalAjustado, probLocalAjustada,
      probEmpateAjustada, probVisitanteAjustada, factorAjuste, k1_forma,
      k2_lesiones, k3_contexto, umbral_diferencia, boost_empate, max_def]
  exact ⟨h, c6_sin_validacion partidoCero h⟩

/-- Claim C7: whenever the adjusted total (after the calibration factor
and the draw-propensity boost) is positive, the three calibrated
probabilities returned by aplicarCalibracionBayesiana sum to exactly 1
over exact arithmetic. -/
theorem c7_calibracion_suma_uno (p : PartidoInput)
    (h : 0 < totalAjustado p) :
    (aplicarCalibracionBayesiana p).prob_local +
      (aplicarCalibracionBayesiana p).prob_empate +
      (aplicarCalibracionBayesiana p).prob_visitante = 1 := by
  have ht : totalAjustado p ≠ 0 := ne_of_gt h
  unfold aplicarCalibracionBayesiana
  rw [div_add_div_same, div_add_div_same, div_eq_one_iff_eq ht]
  unfold totalAjustado
  ring

/-- A well-behaved input: probabilities (1/2, 3/10, 1/5) and no
contextual adjustments. -/
def partidoNormal : PartidoInput :=
  { prob_local := 1/2, prob_empate := 3/10, prob_visitante := 1/5,
    forma_diferencia := 0, lesiones_impact := 0, es_final := false }

/-- Witness for c7_calibracion_suma_uno at a concrete match. -/
theorem c7_calibracion_suma_uno_witness :
    0 < totalAjustado partidoNormal ∧
    (aplicarCalibracionBayesiana partidoNormal).prob_local +
      (aplicarCalibracionBayesiana partidoNormal).prob_empate +
      (aplicarCalibracionBayesiana partidoNormal).prob_visitante = 1 := by
  have h : 0 < totalAjustado partidoNormal := by
    norm_num [partidoNormal, totalAjustado, probLocalAjustada,
      probEmpateAjustada, probVisitanteAjustada, factorAjuste, k1_forma,
      k2_lesiones, k3_contexto, umbral_diferencia, boost_empate, max_def]
  exact ⟨h, c7_calibracion_suma_uno partidoNormal h⟩

/-- Folding acc * (1 - p) along a list multiplies the start value by the
product of the terms (1 - p). -/
theorem foldl_mul_uno_menos (l : List ℚ) :
    ∀ a : ℚ, l.foldl (fun acc prob => acc * (1 - prob)) a =
      a * (l.map (fun prob => 1 - prob)).prod := by
  induction l with
  | nil => intro a; simp
  | cons x xs ih =>
      intro a
      simp only [List.foldl_cons, List.map_cons, List.prod_cons, ih]
      ring

/-- Claim C9: the portfolio-level hit-probability metric equals
1 - prod (1 - p i) over the per-ticket estimates p i; a portfolio of one
ticket yields the estimate of that ticket, and k tickets of identical
estimate p yield 1 - (1 - p)^k. -/
theorem c9_prob_portafolio :
    (∀ quinielas : List Quiniela, probPortafolio11Plus quinielas =
      1 - (quinielas.map (fun q => 1 - q.prob_11_plus)).prod) ∧
    (∀ q : Quiniela, probPortafolio11Plus [q] = q.prob_11_plus) ∧
    (∀ (k : Nat) (q : Quiniela),
      probPortafolio11Plus (List.replicate k q) =
        1 - (1 - q.prob_11_plus) ^ k) := by
  have hgen : ∀ quinielas : List Quiniela, probPortafolio11Plus quinielas =
      1 - (quinielas.map (fun q => 1 - q.prob_11_plus)).prod := by
    intro qs
    unfold probPortafolio11Plus
    rw [foldl_mul_uno_menos, one_mul, List.map_map]
    rfl
  refine ⟨hgen, ?_, ?_⟩
  · intro q
    rw [hgen]
    simp
  · intro k q
    rw [hgen, List.map_replicate, List.prod_replicate]

/-- A filterMap whose function is an if-then-some-else-none is the map of
the filter. -/
theorem filterMap_if_eq_map_filter {α β : Type} (p : α → Prop)
    [DecidablePred p] (h : α → β) (l : List α) :
    (l.filterMap fun c => if p c then some (h c) else none) =
      (l.filter fun c => decide (p c)).map h := by
  induction l with
  | nil => rfl
  | cons x xs ih =>
      by_cases hx : p x
      · simp [List.filterMap_cons, List.filter_cons, hx, ih]
      · simp [List.filterMap_cons, List.filter_cons, hx, ih]

/-- The indices produced by enum are pairwise distinct. -/
theorem pairwise_fst_ne_enum {α : Type} (l : List α) :
    l.enum.Pairwise (fun a b => a.1 ≠ b.1) := by
  have h : (l.enum.map Prod.fst).Nodup := by
    rw [List.enum_map_fst l]
    exact List.nodup_range l.length
  exact List.pairwise_map.mp h

/-- candidatosAdd as a map of a filter. -/
theorem candidatosAdd_eq (quiniela : List Resultado)
    (partidos : List PartidoClasificado) :
    candidatosAdd quiniela partidos =
      ((quiniela.zip partidos).enum.filter fun c =>
        decide (c.2.1 ≠ Resultado.E ∧ c.2.2.prob_empate > 20/100)).map
        (fun c => (c.1, c.2.2.prob_empate)) := by
  unfold candidatosAdd
  exact filterMap_if_eq_map_filter _ _ _

/-- candidatosEmpate as a map of a filter. -/
theorem candidatosEmpate_eq (quiniela : List Resultado)
    (partidos : List PartidoClasificado) :
    candidatosEmpate quiniela partidos =
      ((quiniela.zip partidos).enum.filter fun c =>
        decide (c.2.1 = Resultado.E)).map (fun c => (c.1, c.2.2.prob_empate)) := by
  unfold candidatosEmpate
  exact filterMap_if_eq_map_filter _ _ _

/-- The candidate indices of the add path are pairwise distinct. -/
theorem pairwise_fst_ne_candidatosAdd (quiniela : List Resultado)
    (partidos : List PartidoClasificado) :
    (candidatosAdd quiniela partidos).Pairwise (fun a b => a.1 ≠ b.1) := by
  rw [candidatosAdd_eq]
  exact List.pairwise_map.mpr
    (List.Pairwise.sublist (List.filter_sublist _) (pairwise_fst_ne_enum _))

/-- The candidate indices of the remove path are pairwise distinct. -/
theorem pairwise_fst_ne_candidatosEmpate (quiniela : List Resultado)
    (partidos : List PartidoClasificado) :
    (candidatosEmpate quiniela partidos).Pairwise (fun a b => a.1 ≠ b.1) := by
  rw [candidatosEmpate_eq]
  exact List.pairwise_map.mpr
    (List.Pairwise.sublist (List.filter_sublist _) (pairwise_fst_ne_enum _))

/-- Every add-path candidate points at a non-draw slot of the ticket. -/
theorem mem_candidatosAdd {quiniela : List Resultado}
    {partidos : List PartidoClasificado} {c : Nat × ℚ}
    (hc : c ∈ candidatosAdd quiniela partidos) :
    ∃ r, quiniela[c.1]? = some r ∧ r ≠ Resultado.E := by
  rw [candidatosAdd_eq] at hc
  rcases List.mem_map.mp hc with ⟨d, hd, rfl⟩
  rcases List.mem_filter.mp hd with ⟨hde, hdP⟩
  have henum : (quiniela.zip partidos)[d.1]? = some d.2 :=
    List.mk_mem_enum_iff_getElem?.mp hde
  rcases List.getElem?_zip_eq_some.mp henum with ⟨hq, _⟩
  exact ⟨d.2.1, hq, (of_decide_eq_true hdP).1⟩

/-- Every remove-path candidate points at a draw slot of the ticket, and
its second component is the prob_empate of the match at that index. -/
theorem mem_candidatosEmpate {quiniela : List Resultado}
    {partidos : List PartidoClasificado} {c : Nat × ℚ}
    (hc : c ∈ candidatosEmpate quiniela partidos) :
    quiniela[c.1]? = some Resultado.E ∧
      ∃ m, partidos[c.1]? = some m ∧ c.2 = m.prob_empate := by
  rw [candidatosEmpate_eq] at hc
  rcases List.mem_map.mp hc with ⟨d, hd, rfl⟩
  rcases List.mem_filter.mp hd with ⟨hde, hdP⟩
  have henum : (quiniela.zip partidos)[d.1]? = some d.2 :=
    List.mk_mem_enum_iff_getElem?.mp hde
  rcases List.getElem?_zip_eq_some.mp henum with ⟨hq, hp⟩
  have hE : d.2.1 = Resultado.E := of_decide_eq_true hdP
  exact ⟨hE ▸ hq, d.2.2, hp, rfl⟩

/-- countE is the count of E. -/
theorem countE_eq_count (quiniela : List Resultado) :
    countE quiniela = List.count Resultado.E quiniela :=
  (List.countP_eq_length_filter _ _).symm

/-- Overwriting a draw slot with a non-draw outcome lowers the draw count
by one. -/
theorem countE_set_no_empate {quiniela : List Resultado} {i : Nat}
    {v : Resultado} (hq : quiniela[i]? = some Resultado.E)
    (hv : v ≠ Resultado.E) :
    countE (quiniela.set i v) = countE quiniela - 1 := by
  rcases List.getElem?_eq_some.mp hq with ⟨hlt, hget⟩
  rw [countE_eq_count, countE_eq_count, List.count_set _ _ _ _ hlt]
  simp [hget, hv]

/-- Overwriting a non-draw slot with E raises the draw count by one. -/
theorem countE_set_empate {quiniela : List Resultado} {i : Nat}
    {r : Resultado} (hq : quiniela[i]? = some r) (hr : r ≠ Resultado.E) :
    countE (quiniela.set i Resultado.E) = countE quiniela + 1 := by
  rcases List.getElem?_eq_some.mp hq with ⟨hlt, hget⟩
  rw [countE_eq_count, countE_eq_count, List.count_set _ _ _ _ hlt]
  simp [hget, hr]

/-- Setting the slots named by a list of pairwise-distinct indices, each
holding a non-draw outcome, to E raises the draw count by the number of
indices. -/
theorem countE_foldl_set_empate :
    ∀ (l : List (Nat × ℚ)) (quiniela : List Resultado),
      l.Pairwise (fun a b => a.1 ≠ b.1) →
      (∀ c ∈ l, ∃ r, quiniela[c.1]? = some r ∧ r ≠ Resultado.E) →
      countE (l.foldl (fun q c => q.set c.1 Resultado.E) quiniela) =
        countE quiniela + l.length := by
  intro l
  induction l with
  | nil => intro q _ _; simp
  | cons c cs ih =>
      intro q hpw hmem
      rcases hmem c (List.mem_cons_self c cs) with ⟨r, hq, hr⟩
      rcases List.pairwise_cons.mp hpw with ⟨hne, hpw'⟩
      have hmem' : ∀ d ∈ cs, ∃ r,
          (q.set c.1 Resultado.E)[d.1]? = some r ∧ r ≠ Resultado.E := by
        intro d hd
        rcases hmem d (List.mem_cons_of_mem c hd) with ⟨r', hq', hr'⟩
        exact ⟨r', by rw [List.getElem?_set_ne (hne d hd)]; exact hq', hr'⟩
      simp only [List.foldl_cons, List.length_cons]
      rw [ih (q.set c.1 Resultado.E) hpw' hmem', countE_set_empate hq hr]
      omega

/-- Reverting the slots named by a list of pairwise-distinct indices, each
holding E, to non-draw outcomes lowers the draw count by the number of
indices. -/
theorem countE_foldl_set_no_empate (partidos : List PartidoClasificado) :
    ∀ (l : List (Nat × ℚ)) (quiniela : List Resultado),
      l.Pairwise (fun a b => a.1 ≠ b.1) →
      (∀ c ∈ l, quiniela[c.1]? = some Resultado.E ∧
        (partidos.getD c.1 default).resultadoSugerido ≠ Resultado.E) →
      countE (l.foldl (fun q c =>
          q.set c.1 (partidos.getD c.1 default).resultadoSugerido) quiniela) =
        countE quiniela - l.length := by
  intro l
  induction l with
  | nil => intro q _ _; simp
  | cons c cs ih =>
      intro q hpw hmem
      rcases hmem c (List.mem_cons_self c cs) with ⟨hq, hsug⟩
      rcases List.pairwise_cons.mp hpw with ⟨hne, hpw'⟩
      have hmem' : ∀ d ∈ cs,
          (q.set c.1 (partidos.getD c.1 default).resultadoSugerido)[d.1]? =
            some Resultado.E ∧
          (partidos.getD d.1 default).resultadoSugerido ≠ Resultado.E := by
        intro d hd
        rcases hmem d (List.mem_cons_of_mem c hd) with ⟨hq', hsug'⟩
        exact ⟨by rw [List.getElem?_set_ne (hne d hd)]; exact hq', hsug'⟩
      simp only [List.foldl_cons, List.length_cons]
      rw [ih _ hpw' hmem', countE_set_no_empate hq hsug]
      omega

/-- Claim C2 (amended): ajustarEmpates lands the draw count in
[EMPATES_MIN, EMPATES_MAX] = [4, 6] provided that: when the input draw
count is below the minimum, at least EMPATES_MIN non-draw slots qualify
as candidates (prob_empate > 0.20); when it is above the maximum, at
least the excess number of draw slots exist AND the suggested outcome of
every draw-slot match is itself not Draw (without the last condition the
revert can write Draw back, see the counterexample); when it is already
in range the ticket is untouched. -/
theorem c2_ajustar_empates_en_rango (quiniela : List Resultado)
    (partidos : List PartidoClasificado)
    (h : (countE quiniela < EMPATES_MIN ∧
            EMPATES_MIN ≤ (candidatosAdd quiniela partidos).length) ∨
         (countE quiniela > EMPATES_MAX ∧
            countE quiniela - EMPATES_MAX ≤
              (candidatosEmpate quiniela partidos).length ∧
            (∀ c ∈ candidatosEmpate quiniela partidos,
              (partidos.getD c.1 default).resultadoSugerido ≠ Resultado.E)) ∨
         (EMPATES_MIN ≤ countE quiniela ∧ countE quiniela ≤ EMPATES_MAX)) :
    EMPATES_MIN ≤ countE (ajustarEmpates quiniela partidos) ∧
      countE (ajustarEmpates quiniela partidos) ≤ EMPATES_MAX := by
  have hmm : EMPATES_MIN ≤ EMPATES_MAX := by decide
  rcases h with ⟨hlt, hcand⟩ | ⟨hgt, hlen, hsug⟩ | ⟨h1, h2⟩
  · simp only [ajustarEmpates]
    rw [if_pos hlt]
    have hperm : (sortDescBy (fun c => c.2)
        (candidatosAdd quiniela partidos)).Perm
        (candidatosAdd quiniela partidos) := List.perm_insertionSort _ _
    have hlenL : (sortDescBy (fun c => c.2)
        (candidatosAdd quiniela partidos)).length =
        (candidatosAdd quiniela partidos).length := hperm.length_eq
    have hpw : (sortDescBy (fun c => c.2)
        (candidatosAdd quiniela partidos)).Pairwise
        (fun a b => a.1 ≠ b.1) :=
      (List.Perm.pairwise_iff (fun hxy => Ne.symm hxy) hperm).mpr
        (pairwise_fst_ne_candidatosAdd quiniela partidos)
    rw [countE_foldl_set_empate _ quiniela
      (List.Pairwise.sublist (List.take_sublist _ _) hpw)
      (fun c hc => mem_candidatosAdd
        (hperm.mem_iff.mp (List.mem_of_mem_take hc))),
      List.length_take]
    omega
  · simp only [ajustarEmpates]
    rw [if_neg (by omega), if_pos hgt]
    have hperm : (sortAscBy (fun c => c.2)
        (candidatosEmpate quiniela partidos)).Perm
        (candidatosEmpate quiniela partidos) := List.perm_insertionSort _ _
    have hlenL : (sortAscBy (fun c => c.2)
        (candidatosEmpate quiniela partidos)).length =
        (candidatosEmpate quiniela partidos).length := hperm.length_eq
    have hpw : (sortAscBy (fun c => c.2)
        (candidatosEmpate quiniela partidos)).Pairwise
        (fun a b => a.1 ≠ b.1) :=
      (List.Perm.pairwise_iff (fun hxy => Ne.symm hxy) hperm).mpr
        (pairwise_fst_ne_candidatosEmpate quiniela partidos)
    rw [countE_foldl_set_no_empate partidos _ quiniela
      (List.Pairwise.sublist (List.take_sublist _ _) hpw)
      (fun c hc => by
        have hcm := hperm.mem_iff.mp (List.mem_of_mem_take hc)
        exact ⟨(mem_candidatosEmpate hcm).1, hsug c hcm⟩),
      List.length_take]
    omega
  · have hid : ajustarEmpates quiniela partidos = quiniela := by
      simp only [ajustarEmpates]
      split_ifs with hx hy
      · omega
      · omega
      · rfl
    rw [hid]
    exact ⟨h1, h2⟩

/-- A classified match that suggests Draw: probabilities (1/4, 1/2, 1/4),
classification TendenciaEmpate, suggested outcome E, consistent with
clasificarMatch (checked inside the counterexample). -/
def partidoSugiereEmpate : PartidoClasificado :=
  { prob_local := 1/4, prob_empate := 1/2, prob_visitante := 1/4,
    clasificacion := Clasificacion.TendenciaEmpate,
    resultadoSugerido := Resultado.E }

/-- Claim C2, counterexample: a seven-draw ticket over matches whose
suggested outcome is Draw. The input draw count 7 exceeds EMPATES_MAX = 6
and seven draw slots (at least the excess 1) exist, satisfying the
remove-path proviso of the claim, yet the remove path writes each chosen
slot back to the suggested outcome E, so the adjusted ticket still has 7
draws, outside [4, 6]. -/
theorem c2_counterexample :
    partidoSugiereEmpate = clasificarMatch
      { prob_local := 1/4, prob_empate := 1/2, prob_visitante := 1/4 } ∧
    countE (List.replicate 7 Resultado.E) > EMPATES_MAX ∧
    countE (List.replicate 7 Resultado.E) - EMPATES_MAX ≤
      (candidatosEmpate (List.replicate 7 Resultado.E)
        (List.replicate 7 partidoSugiereEmpate)).length ∧
    countE (ajustarEmpates (List.replicate 7 Resultado.E)
      (List.replicate 7 partidoSugiereEmpate)) > EMPATES_MAX := by
  refine ⟨?_, by decide, by decide, ?_⟩
  · norm_num [partidoSugiereEmpate, clasificarMatch, clasificarPartido,
      maxProb, max_def, getResultadoSugerido, probOf]
  · have h7 : countE (ajustarEmpates (List.replicate 7 Resultado.E)
        (List.replicate 7 partidoSugiereEmpate)) = 7 := by
      norm_num [ajustarEmpates, countE, candidatosEmpate, candidatosAdd,
        sortAscBy, sortDescBy, List.insertionSort, List.orderedInsert,
        List.replicate, List.enum, List.enumFrom, List.zip, List.zipWith,
        List.filterMap, partidoSugiereEmpate, EMPATES_MIN, EMPATES_MAX,
        List.foldl, List.take, List.set, List.getD, List.filter]
    rw [h7]
    decide

/-- Witness for c2_ajustar_empates_en_rango: a five-slot all-home ticket
over draw-leaning matches enters the add path and ends with exactly
EMPATES_MIN draws. -/
theorem c2_ajustar_empates_en_rango_witness :
    (countE (List.replicate 5 Resultado.L) < EMPATES_MIN ∧
      EMPATES_MIN ≤ (candidatosAdd (List.replicate 5 Resultado.L)
        (List.replicate 5 partidoSugiereEmpate)).length) ∧
    (EMPATES_MIN ≤ countE (ajustarEmpates (List.replicate 5 Resultado.L)
        (List.replicate 5 partidoSugiereEmpate)) ∧
      countE (ajustarEmpates (List.replicate 5 Resultado.L)
        (List.replicate 5 partidoSugiereEmpate)) ≤ EMPATES_MAX) := by
  have hlt : countE (List.replicate 5 Resultado.L) < EMPATES_MIN := by decide
  have hcand : EMPATES_MIN ≤ (candidatosAdd (List.replicate 5 Resultado.L)
      (List.replicate 5 partidoSugiereEmpate)).length := by
    norm_num [candidatosAdd, List.replicate, List.enum, List.enumFrom,
      List.zip, List.zipWith, List.filterMap, partidoSugiereEmpate,
      EMPATES_MIN]
    decide
  exact ⟨⟨hlt, hcand⟩,
    c2_ajustar_empates_en_rango _ _ (Or.inl ⟨hlt, hcand⟩)⟩

/-- Claim C10: a ticket whose draw count already lies in
[EMPATES_MIN, EMPATES_MAX] passes through ajustarEmpates unchanged. -/
theorem c10_ajustar_empates_identidad (quiniela : List Resultado)
    (partidos : List PartidoClasificado)
    (hmin : EMPATES_MIN ≤ countE quiniela)
    (hmax : countE quiniela ≤ EMPATES_MAX) :
    ajustarEmpates quiniela partidos = quiniela := by
  simp only [ajustarEmpates]
  split_ifs with h1 h2
  · omega
  · omega
  · rfl

/-- Claim C8: clasificarPartido assigns exactly one category, by
first-match-wins evaluation order: Ancla iff the maximum probability
exceeds 0.60; TendenciaEmpate iff the previous rule failed, p_empate
exceeds 0.30 and p_empate is at least both other probabilities; Divisor
iff both previous rules failed and the maximum lies in [0.40, 0.60);
Neutro otherwise. The four right-hand sides are mutually exclusive and
exhaustive, so the iffs pin the category down uniquely. -/
theorem c8_clasificar_partido_caracterizacion (p : Probs) :
    (clasificarPartido p = Clasificacion.Ancla ↔ maxProb p > 60/100) ∧
    (clasificarPartido p = Clasificacion.TendenciaEmpate ↔
      maxProb p ≤ 60/100 ∧ p.prob_empate > 30/100 ∧
      p.prob_empate ≥ max p.prob_local p.prob_visitante) ∧
    (clasificarPartido p = Clasificacion.Divisor ↔
      maxProb p ≤ 60/100 ∧
      (p.prob_empate ≤ 30/100 ∨
        p.prob_empate < max p.prob_local p.prob_visitante) ∧
      40/100 ≤ maxProb p ∧ maxProb p < 60/100) ∧
    (clasificarPartido p = Clasificacion.Neutro ↔
      maxProb p ≤ 60/100 ∧
      (p.prob_empate ≤ 30/100 ∨
        p.prob_empate < max p.prob_local p.prob_visitante) ∧
      (maxProb p < 40/100 ∨ maxProb p = 60/100)) := by
  unfold clasificarPartido
  split_ifs with h1 h2 h3
  · exact ⟨⟨fun _ => h1, fun _ => rfl⟩,
      ⟨fun hh => absurd hh (by decide),
        fun hc => absurd h1 (not_lt.mpr hc.1)⟩,
      ⟨fun hh => absurd hh (by decide),
        fun hc => absurd h1 (not_lt.mpr hc.1)⟩,
      ⟨fun hh => absurd hh (by decide),
        fun hc => absurd h1 (not_lt.mpr hc.1)⟩⟩
  · refine ⟨⟨fun hh => absurd hh (by decide), fun hc => absurd hc h1⟩,
      ⟨fun _ => ⟨not_lt.mp h1, h2.1, h2.2⟩, fun _ => rfl⟩,
      ⟨fun hh => absurd hh (by decide), fun hc => ?_⟩,
      ⟨fun hh => absurd hh (by decide), fun hc => ?_⟩⟩
    · rcases hc.2.1 with hx | hx
      · exact absurd h2.1 (not_lt.mpr hx)
      · exact absurd h2.2 (not_le.mpr hx)
    · rcases hc.2.1 with hx | hx
      · exact absurd h2.1 (not_lt.mpr hx)
      · exact absurd h2.2 (not_le.mpr hx)
  · have hz : p.prob_empate ≤ 30/100 ∨
        p.prob_empate < max p.prob_local p.prob_visitante := by
      by_cases he : p.prob_empate > 30/100
      · right
        by_contra hx
        exact h2 ⟨he, not_lt.mp hx⟩
      · exact Or.inl (not_lt.mp he)
    refine ⟨⟨fun hh => absurd hh (by decide), fun hc => absurd hc h1⟩,
      ⟨fun hh => absurd hh (by decide), fun hc => absurd ⟨hc.2.1, hc.2.2⟩ h2⟩,
      ⟨fun _ => ⟨not_lt.mp h1, hz, h3.1, h3.2⟩, fun _ => rfl⟩,
      ⟨fun hh => absurd hh (by decide), fun hc => ?_⟩⟩
    rcases hc.2.2 with hx | hx
    · exact absurd h3.1 (not_le.mpr hx)
    · exact absurd h3.2 (not_lt.mpr (le_of_eq hx.symm))
  · have hz : p.prob_empate ≤ 30/100 ∨
        p.prob_empate < max p.prob_local p.prob_visitante := by
      by_cases he : p.prob_empate > 30/100
      · right
        by_contra hx
        exact h2 ⟨he, not_lt.mp hx⟩
      · exact Or.inl (not_lt.mp he)
    have hz2 : maxProb p < 40/100 ∨ maxProb p = 60/100 := by
      by_cases hm : 40/100 ≤ maxProb p
      · right
        have hge : ¬(maxProb p < 60/100) := fun hlt => h3 ⟨hm, hlt⟩
        exact le_antisymm (not_lt.mp h1) (not_lt.mp hge)
      · exact Or.inl (not_le.mp hm)
    refine ⟨⟨fun hh => absurd hh (by decide), fun hc => absurd hc h1⟩,
      ⟨fun hh => absurd hh (by decide), fun hc => absurd ⟨hc.2.1, hc.2.2⟩ h2⟩,
      ⟨fun hh => absurd hh (by decide), fun hc => absurd ⟨hc.2.2.1, hc.2.2.2⟩ h3⟩,
      ⟨fun _ => ⟨not_lt.mp h1, hz, hz2⟩, fun _ => rfl⟩⟩

/-- The maximum of the three probabilities of a match is attained by
exactly one outcome. -/
def maxUnico (m : PartidoClasificado) : Prop :=
  (m.prob_local > m.prob_empate ∧ m.prob_local > m.prob_visitante) ∨
  (m.prob_empate > m.prob_local ∧ m.prob_empate > m.prob_visitante) ∨
  (m.prob_visitante > m.prob_local ∧ m.prob_visitante > m.prob_empate)

/-- When the maximum probability is uniquely attained and the stored
suggested outcome is the one the classifier computes, the alternative
outcome (second of the stable descending sort) differs from the suggested
outcome. -/
theorem alternativo_ne_sugerido (m : PartidoClasificado)
    (hcons : m.resultadoSugerido = getResultadoSugerido (probsDe m))
    (hmax : maxUnico m) :
    getResultadoAlternativo m ≠ m.resultadoSugerido := by
  rw [hcons]
  unfold getResultadoSugerido getResultadoAlternativo sortDescBy probsDe
  simp only [List.foldl_cons, List.foldl_nil, probOf, List.insertionSort,
    List.orderedInsert, ge_iff_le]
  rcases hmax with ⟨h1, h2⟩ | ⟨h1, h2⟩ | ⟨h1, h2⟩ <;>
    split_ifs <;>
    simp_all <;>
    (try (split_ifs <;> simp_all)) <;>
    try linarith

/-- The pivot slot of the raw satellite pair holds the suggested outcome
on ticket A and the alternative outcome on ticket B. -/
theorem crearParSatelitesGo_pivote (pivot : Nat) (rnd : Nat → ℚ) :
    ∀ (partidos : List PartidoClasificado) (i consumed j : Nat),
      j < partidos.length → i + j = pivot →
      (crearParSatelitesGo pivot rnd partidos i consumed).1.getD j Resultado.L =
        (partidos.getD j default).resultadoSugerido ∧
      (crearParSatelitesGo pivot rnd partidos i consumed).2.getD j Resultado.L =
        getResultadoAlternativo (partidos.getD j default) := by
  intro partidos
  induction partidos with
  | nil => intro i c j hj _; simp at hj
  | cons partido rest ih =>
      intro i c j hj hpiv
      cases j with
      | zero =>
          have hip : i = pivot := by omega
          simp only [crearParSatelitesGo, if_pos hip]
          simp [List.getD_cons_zero]
      | succ j =>
          have hj' : j < rest.length := by
            simp only [List.length_cons] at hj; omega
          simp only [crearParSatelitesGo]
          split_ifs <;>
            simp only [List.getD_cons_succ] <;>
            exact ih (i + 1) _ j hj' (by omega)

/-- A non-pivot slot whose match is classified Ancla holds the same
outcome on both raw satellite tickets. -/
theorem crearParSatelitesGo_ancla (pivot : Nat) (rnd : Nat → ℚ) :
    ∀ (partidos : List PartidoClasificado) (i consumed j : Nat),
      j < partidos.length → i + j ≠ pivot →
      (partidos.getD j default).clasificacion = Clasificacion.Ancla →
      (crearParSatelitesGo pivot rnd partidos i consumed).1.getD j Resultado.L =
        (crearParSatelitesGo pivot rnd partidos i consumed).2.getD j
          Resultado.L := by
  intro partidos
  induction partidos with
  | nil => intro i c j hj _ _; simp at hj
  | cons partido rest ih =>
      intro i c j hj hpiv hcl
      cases j with
      | zero =>
          have hip : ¬(i = pivot) := by omega
          have hcl0 : partido.clasificacion = Clasificacion.Ancla := by
            simpa using hcl
          simp only [crearParSatelitesGo, if_neg hip, if_pos hcl0]
          simp [List.getD_cons_zero]
      | succ j =>
          have hj' : j < rest.length := by
            simp only [List.length_cons] at hj; omega
          have hcl' : (rest.getD j default).clasificacion =
              Clasificacion.Ancla := by simpa using hcl
          simp only [crearParSatelitesGo]
          split_ifs <;>
            simp only [List.getD_cons_succ] <;>
            exact ih (i + 1) _ j hj' (by omega) hcl'

/-- Claim C4 (amended): in the satellite pair BEFORE tie adjustment, the
pivot slot holds the suggested outcome on ticket A and the alternative
outcome on ticket B, which differ whenever the pivot match attains its
maximum probability at a single outcome and the stored suggested outcome
agrees with the classifier; and every non-pivot slot classified Ancla is
identical between the two raw tickets. (Tie adjustment runs afterwards on
each ticket independently and can overwrite either property, and a tied
maximum makes the alternative equal the suggested outcome: see the
counterexample.) -/
theorem c4_par_satelites_pivote_anclas (partidos : List PartidoClasificado)
    (divisorIdx : List Nat) (parId : Nat) (rnd : Nat → ℚ)
    (hpl : pivotPrincipal divisorIdx parId < partidos.length)
    (hcons : (partidos.getD (pivotPrincipal divisorIdx parId)
        default).resultadoSugerido =
      getResultadoSugerido (probsDe (partidos.getD
        (pivotPrincipal divisorIdx parId) default)))
    (hmax : maxUnico (partidos.getD (pivotPrincipal divisorIdx parId)
      default)) :
    (crearParSatelitesRaw partidos divisorIdx parId rnd).1.getD
        (pivotPrincipal divisorIdx parId) Resultado.L ≠
      (crearParSatelitesRaw partidos divisorIdx parId rnd).2.getD
        (pivotPrincipal divisorIdx parId) Resultado.L ∧
    (∀ j, j < partidos.length → j ≠ pivotPrincipal divisorIdx parId →
      (partidos.getD j default).clasificacion = Clasificacion.Ancla →
      (crearParSatelitesRaw partidos divisorIdx parId rnd).1.getD j
          Resultado.L =
        (crearParSatelitesRaw partidos divisorIdx parId rnd).2.getD j
          Resultado.L) := by
  constructor
  · have h := crearParSatelitesGo_pivote (pivotPrincipal divisorIdx parId)
      rnd partidos 0 0 (pivotPrincipal divisorIdx parId) hpl (by omega)
    rw [crearParSatelitesRaw, h.1, h.2]
    exact fun heq => alternativo_ne_sugerido _ hcons hmax heq.symm
  · intro j hj hne hcl
    exact crearParSatelitesGo_ancla (pivotPrincipal divisorIdx parId) rnd
      partidos 0 0 j hj (by omega) hcl

/-- A classified match with a tie at the top: probabilities
(0.45, 0.45, 0.10), classification TendenciaEmpate, suggested outcome E
(consistency with clasificarMatch is proved in the counterexample). The
last-wins suggested outcome and the stable-sort alternative outcome are
both E. -/
def partidoEmpatadoLE : PartidoClasificado :=
  { prob_local := 45/100, prob_empate := 45/100, prob_visitante := 10/100,
    clasificacion := Clasificacion.TendenciaEmpate,
    resultadoSugerido := Resultado.E }

/-- A Divisor match with a unique maximum: probabilities
(0.50, 0.30, 0.20), suggested outcome L, alternative outcome E
(consistency with clasificarMatch is proved in the counterexample). -/
def partidoDivisorLV : PartidoClasificado :=
  { prob_local := 1/2, prob_empate := 3/10, prob_visitante := 1/5,
    clasificacion := Clasificacion.Divisor,
    resultadoSugerido := Resultado.L }

/-- Claim C4, counterexample: two single-match portfolios on which the
returned satellite pair does NOT differ at the pivot slot (slot 0).
First, a tied maximum (0.45, 0.45, 0.10) makes the alternative outcome
equal the suggested outcome E, so both raw tickets already agree; second,
even with a unique maximum (0.50, 0.30, 0.20) the tie adjustment that
runs after the pair is built rewrites ticket A at the pivot slot from L
to E and leaves ticket B at E, so the returned tickets agree slot by
slot. Both inputs are consistent classified matches. -/
theorem c4_counterexample :
    partidoEmpatadoLE = clasificarMatch (probsDe partidoEmpatadoLE) ∧
    partidoDivisorLV = clasificarMatch (probsDe partidoDivisorLV) ∧
    crearParSatelites [partidoEmpatadoLE]
        (partidosDivisorIdx [partidoEmpatadoLE]) 0 (fun _ => 1) =
      ([Resultado.E], [Resultado.E]) ∧
    maxUnico partidoDivisorLV ∧
    crearParSatelites [partidoDivisorLV]
        (partidosDivisorIdx [partidoDivisorLV]) 0 (fun _ => 1) =
      ([Resultado.E], [Resultado.E]) := by
  refine ⟨?_, ?_, ?_, ?_, ?_⟩
  · norm_num [partidoEmpatadoLE, probsDe, clasificarMatch, clasificarPartido,
      maxProb, max_def, getResultadoSugerido, probOf]
  · norm_num [partidoDivisorLV, probsDe, clasificarMatch, clasificarPartido,
      maxProb, max_def, getResultadoSugerido, probOf]
  · norm_num [crearParSatelites, crearParSatelitesRaw, crearParSatelitesGo,
      pivotPrincipal, partidosDivisorIdx, partidoEmpatadoLE,
      getResultadoAlternativo, sortDescBy, List.insertionSort,
      List.orderedInsert, ajustarEmpates, countE, candidatosAdd,
      candidatosEmpate, List.enum, List.enumFrom, List.zip, List.zipWith,
      List.filterMap, List.filter, List.foldl, List.take, List.set,
      List.getD, EMPATES_MIN, EMPATES_MAX]
  · norm_num [maxUnico, partidoDivisorLV]
  · norm_num [crearParSatelites, crearParSatelitesRaw, crearParSatelitesGo,
      pivotPrincipal, partidosDivisorIdx, partidoDivisorLV,
      getResultadoAlternativo, sortDescBy, List.insertionSort,
      List.orderedInsert, ajustarEmpates, countE, candidatosAdd,
      candidatosEmpate, List.enum, List.enumFrom, List.zip, List.zipWith,
      List.filterMap, List.filter, List.foldl, List.take, List.set,
      List.getD, EMPATES_MIN, EMPATES_MAX]
    decide

/-- Witness for c4_par_satelites_pivote_anclas: a single Divisor match
with a unique maximum; the raw pair holds (L, E) at the pivot slot. -/
theorem c4_par_satelites_pivote_anclas_witness :
    pivotPrincipal (partidosDivisorIdx [partidoDivisorLV]) 0 <
      [partidoDivisorLV].length ∧
    ([partidoDivisorLV].getD
        (pivotPrincipal (partidosDivisorIdx [partidoDivisorLV]) 0)
        default).resultadoSugerido =
      getResultadoSugerido (probsDe ([partidoDivisorLV].getD
        (pivotPrincipal (partidosDivisorIdx [partidoDivisorLV]) 0)
        default)) ∧
    maxUnico ([partidoDivisorLV].getD
      (pivotPrincipal (partidosDivisorIdx [partidoDivisorLV]) 0) default) ∧
    (crearParSatelitesRaw [partidoDivisorLV]
        (partidosDivisorIdx [partidoDivisorLV]) 0 (fun _ => 1)).1.getD
        (pivotPrincipal (partidosDivisorIdx [partidoDivisorLV]) 0)
        Resultado.L ≠
      (crearParSatelitesRaw [partidoDivisorLV]
        (partidosDivisorIdx [partidoDivisorLV]) 0 (fun _ => 1)).2.getD
        (pivotPrincipal (partidosDivisorIdx [partidoDivisorLV]) 0)
        Resultado.L := by
  have hp : pivotPrincipal (partidosDivisorIdx [partidoDivisorLV]) 0 = 0 := by
    decide
  have hpl : pivotPrincipal (partidosDivisorIdx [partidoDivisorLV]) 0 <
      [partidoDivisorLV].length := by decide
  have hcons : ([partidoDivisorLV].getD
      (pivotPrincipal (partidosDivisorIdx [partidoDivisorLV]) 0)
      default).resultadoSugerido =
      getResultadoSugerido (probsDe ([partidoDivisorLV].getD
        (pivotPrincipal (partidosDivisorIdx [partidoDivisorLV]) 0)
        default)) := by
    rw [hp]
    norm_num [List.getD, partidoDivisorLV, probsDe, getResultadoSugerido,
      probOf]
  have hmax : maxUnico ([partidoDivisorLV].getD
      (pivotPrincipal (partidosDivisorIdx [partidoDivisorLV]) 0) default) := by
    rw [hp]
    norm_num [List.getD, partidoDivisorLV, maxUnico]
  exact ⟨hpl, hcons, hmax,
    (c4_par_satelites_pivote_anclas [partidoDivisorLV]
      (partidosDivisorIdx [partidoDivisorLV]) 0 (fun _ => 1)
      hpl hcons hmax).1⟩

/-- The concentration test of a slot against its limit, reduced to a
comparison of natural numbers for a 20-ticket portfolio. -/
theorem maxConc_gt_lim_iff (quinielas : List (List Resultado)) (idx : Nat)
    (h20 : quinielas.length = 20) :
    (limiteAplicable idx < maxConcentracion quinielas idx) ↔
      ((if idx < 3 then (60:ℕ) else 70) * 20 < 100 *
        max (conteoSlot quinielas idx Resultado.L)
          (max (conteoSlot quinielas idx Resultado.E)
            (conteoSlot quinielas idx Resultado.V))) := by
  unfold maxConcentracion limiteAplicable CONCENTRACION_MAX_INICIAL
    CONCENTRACION_MAX_GENERAL
  rw [h20]
  push_cast
  by_cases hidx : idx < 3
  · rw [if_pos hidx, if_pos hidx,
      div_lt_div_iff₀ (by norm_num) (by norm_num)]
    push_cast
    constructor
    · intro h
      have h' : (60:ℚ) * 20 < 100 *
          max (conteoSlot quinielas idx Resultado.L : ℚ)
            (max (conteoSlot quinielas idx Resultado.E : ℚ)
              (conteoSlot quinielas idx Resultado.V : ℚ)) := by linarith
      exact_mod_cast h'
    · intro h
      have h' : (60:ℚ) * 20 < 100 *
          max (conteoSlot quinielas idx Resultado.L : ℚ)
            (max (conteoSlot quinielas idx Resultado.E : ℚ)
              (conteoSlot quinielas idx Resultado.V : ℚ)) := by
        exact_mod_cast h
      linarith
  · rw [if_neg hidx, if_neg hidx,
      div_lt_div_iff₀ (by norm_num) (by norm_num)]
    push_cast
    constructor
    · intro h
      have h' : (70:ℚ) * 20 < 100 *
          max (conteoSlot quinielas idx Resultado.L : ℚ)
            (max (conteoSlot quinielas idx Resultado.E : ℚ)
              (conteoSlot quinielas idx Resultado.V : ℚ)) := by linarith
      exact_mod_cast h'
    · intro h
      have h' : (70:ℚ) * 20 < 100 *
          max (conteoSlot quinielas idx Resultado.L : ℚ)
            (max (conteoSlot quinielas idx Resultado.E : ℚ)
              (conteoSlot quinielas idx Resultado.V : ℚ)) := by
        exact_mod_cast h
      linarith

/-- Claim C5 (amended): in every 20-ticket portfolio whose tickets all
pick Home on slot 1 (index 0), the concentration of that slot is 1.0 and
exceeds the 0.60 initial-slot limit; the validator records the slot-1
violation as part of the single aggregated error when more than three
slots violate their limits, and as a warning otherwise. -/
theorem c5_concentracion_slot1 (quinielas : List (List Resultado))
    (hn : quinielas.length = 20)
    (hL : ∀ q ∈ quinielas, q[0]? = some Resultado.L) :
    maxConcentracion quinielas 0 = 1 ∧
    limiteAplicable 0 = CONCENTRACION_MAX_INICIAL ∧
    limiteAplicable 0 < maxConcentracion quinielas 0 ∧
    (3 < (problemasConcentracion quinielas).length →
      ∃ e ∈ (validarConcentracion quinielas).errores, 0 ∈ e) ∧
    ((problemasConcentracion quinielas).length ≤ 3 →
      0 ∈ (validarConcentracion quinielas).warnings) := by
  have hcL : conteoSlot quinielas 0 Resultado.L = 20 := by
    rw [← hn]
    exact List.countP_eq_length.mpr (fun q hq => by simp [hL q hq])
  have hcE : conteoSlot quinielas 0 Resultado.E = 0 :=
    List.countP_eq_zero.mpr (fun q hq => by simp [hL q hq])
  have hcV : conteoSlot quinielas 0 Resultado.V = 0 :=
    List.countP_eq_zero.mpr (fun q hq => by simp [hL q hq])
  have hmax1 : maxConcentracion quinielas 0 = 1 := by
    unfold maxConcentracion
    rw [hcL, hcE, hcV, hn]
    norm_num [max_def]
  have hlim : limiteAplicable 0 = CONCENTRACION_MAX_INICIAL := rfl
  have hgt : limiteAplicable 0 < maxConcentracion quinielas 0 := by
    rw [hmax1, hlim]
    norm_num [CONCENTRACION_MAX_INICIAL]
  have hmem : 0 ∈ problemasConcentracion quinielas := by
    unfold problemasConcentracion
    refine List.mem_filter.mpr ⟨by decide, ?_⟩
    simpa using hgt
  have htake : 0 ∈ (problemasConcentracion quinielas).take 3 := by
    unfold problemasConcentracion
    rw [List.range_succ_eq_map, List.filter_cons, if_pos (by simpa using hgt)]
    simp
  have hne : (problemasConcentracion quinielas).length > 0 :=
    List.length_pos.mpr (List.ne_nil_of_mem hmem)
  refine ⟨hmax1, hlim, hgt, ?_, ?_⟩
  · intro h3
    unfold validarConcentracion
    rw [if_neg (by omega), if_pos hne, if_pos h3]
    exact ⟨(problemasConcentracion quinielas).take 3, by simp, htake⟩
  · intro h3
    unfold validarConcentracion
    rw [if_neg (by omega), if_pos hne, if_neg (by omega)]
    exact hmem

/-- A 20-ticket portfolio: every ticket picks Home on slot 1; on the
remaining 13 slots seven tickets pick Home, seven pick Draw and six pick
Away, so no other slot breaches its concentration limit. -/
def portafolioC5 : List (List Resultado) :=
  (List.range 20).map (fun k =>
    Resultado.L :: List.replicate 13
      (if k < 7 then Resultado.L else if k < 14 then Resultado.E
        else Resultado.V))

/-- Claim C5, counterexample: in this 20-ticket portfolio every ticket
picks Home on slot 1 and the concentration there is 1.0 > 0.60, yet the
validator records NO error at all: slot 1 is the only violating slot, so
the single violation lands in the warnings list and the error list stays
empty, while the claim demands an error for slot 1. -/
theorem c5_counterexample :
    portafolioC5.length = 20 ∧
    (∀ q ∈ portafolioC5, q[0]? = some Resultado.L) ∧
    limiteAplicable 0 < maxConcentracion portafolioC5 0 ∧
    (validarConcentracion portafolioC5).errores = [] ∧
    (validarConcentracion portafolioC5).warnings = [0] := by
  have heq : problemasConcentracion portafolioC5 =
      List.filter (fun x => decide ((if x < 3 then (60:ℕ) else 70) * 20 <
        100 * max (conteoSlot portafolioC5 x Resultado.L)
          (max (conteoSlot portafolioC5 x Resultado.E)
            (conteoSlot portafolioC5 x Resultado.V)))) (List.range 14) := by
    unfold problemasConcentracion
    exact List.filter_congr (fun x _ => decide_eq_decide.mpr
      (maxConc_gt_lim_iff portafolioC5 x (by decide)))
  have hprob : problemasConcentracion portafolioC5 = [0] := by
    rw [heq]
    decide
  have hval : validarConcentracion portafolioC5 =
      { errores := [], warnings := [0] } := by
    unfold validarConcentracion
    rw [hprob, if_neg (by decide), if_pos (by decide), if_neg (by decide)]
  refine ⟨by decide, by decide, ?_, ?_, ?_⟩
  · rw [maxConc_gt_lim_iff portafolioC5 0 (by decide)]
    decide
  · rw [hval]
  · rw [hval]

/-- A 20-ticket portfolio of identical all-Home tickets. -/
def portafolioTodoL : List (List Resultado) :=
  List.replicate 20 (List.replicate 14 Resultado.L)

/-- Witness for c5_concentracion_slot1 at the all-Home portfolio. -/
theorem c5_concentracion_slot1_witness :
    portafolioTodoL.length = 20 ∧
    (∀ q ∈ portafolioTodoL, q[0]? = some Resultado.L) ∧
    maxConcentracion portafolioTodoL 0 = 1 ∧
    (3 < (problemasConcentracion portafolioTodoL).length →
      ∃ e ∈ (validarConcentracion portafolioTodoL).errores, 0 ∈ e) := by
  have hn : portafolioTodoL.length = 20 := by decide
  have hL : ∀ q ∈ portafolioTodoL, q[0]? = some Resultado.L := by decide
  have h := c5_concentracion_slot1 portafolioTodoL hn hL
  exact ⟨hn, hL, h.1, h.2.2.2.1⟩

/-- A five-slot ticket with four draws, inside the admissible range. -/
def quinielaEnRango : List Resultado :=
  [Resultado.E, Resultado.E, Resultado.E, Resultado.E, Resultado.L]

/-- Witness for c10_ajustar_empates_identidad at a concrete ticket. -/
theorem c10_ajustar_empates_identidad_witness :
    EMPATES_MIN ≤ countE quinielaEnRango ∧
    countE quinielaEnRango ≤ EMPATES_MAX ∧
    ajustarEmpates quinielaEnRango [] = quinielaEnRango :=
  ⟨by decide, by decide,
    c10_ajustar_empates_identidad quinielaEnRango [] (by decide) (by decide)⟩
